import Mathlib

/-!
Verification development for the fiscal-facil-3.1 frontend core:
the error normalizer, the CNPJ mask/unmask formatter, the CNAE
registry auto-populator (CadastroEmpresa), the XML upload orchestrator
(UploadXML), and the invoice PDF value-table formatter (pdfGenerator).

JavaScript dynamic values are embedded as the inductive `JSValue`;
JavaScript exceptions (property access on null/undefined, calling a
missing method) are embedded as `Except Unit`.
-/

/-- Shallow embedding of a JavaScript/JSON dynamic value.  Numbers in the
payloads the normalizer touches are integers, so `vNum` carries `Int`;
the invoice money model later in the file uses exact rationals instead.
Functions are not modeled. -/
inductive JSValue where
  | vNull : JSValue
  | vUndefined : JSValue
  | vBool : Bool → JSValue
  | vNum : Int → JSValue
  | vStr : String → JSValue
  | vArr : List JSValue → JSValue
  | vObj : List (String × JSValue) → JSValue

/-- JavaScript truthiness: null, undefined, false, 0 and the empty string
are falsy; every object and array (even empty) is truthy. -/
def truthy : JSValue → Bool
  | .vNull => false
  | .vUndefined => false
  | .vBool b => b
  | .vNum n => n != 0
  | .vStr s => s != ""
  | .vArr _ => true
  | .vObj _ => true

/-- `typeof v === 'object'`: true for plain objects, arrays and (a JS
quirk) null; false for strings, numbers, booleans and undefined. -/
def typeofIsObject : JSValue → Bool
  | .vNull => true
  | .vArr _ => true
  | .vObj _ => true
  | _ => false

/-- First-match field lookup in an object's field list (the field lists we
build have distinct keys, matching JS object literals). -/
def lookupField : List (String × JSValue) → String → Option JSValue
  | [], _ => none
  | (k, v) :: fs, key => if k == key then some v else lookupField fs key

/-- Optional-chaining access `v?.k`: null/undefined yield undefined
instead of throwing; primitives have no such property, giving undefined. -/
def optChainField (v : JSValue) (k : String) : JSValue :=
  match v with
  | .vObj fs => (lookupField fs k).getD .vUndefined
  | _ => .vUndefined

/-- Plain property access `v.k`:
throws (TypeError) on null/undefined, yields the field on objects and
undefined on other values. -/
def getField (v : JSValue) (k : String) : Except Unit JSValue :=
  match v with
  | .vNull => .error ()
  | .vUndefined => .error ()
  | .vObj fs => .ok ((lookupField fs k).getD .vUndefined)
  | _ => .ok .vUndefined

mutual
/-- JavaScript `String(v)` / template-literal coercion: arrays join their
elements with commas (null/undefined elements become empty), plain
objects render as the fixed `[object Object]` tag. -/
def jsToStringCoerce : JSValue → String
  | .vNull => "null"
  | .vUndefined => "undefined"
  | .vBool b => cond b "true" "false"
  | .vNum n => toString n
  | .vStr s => s
  | .vObj _ => "[object Object]"
  | .vArr xs => String.intercalate "," (coerceElems xs)

/-- Element coercion used by `Array.prototype.join`: null and undefined
become the empty string, every other element is `String(·)`-coerced. -/
def coerceElems : List JSValue → List String
  | [] => []
  | .vNull :: xs => "" :: coerceElems xs
  | .vUndefined :: xs => "" :: coerceElems xs
  | x :: xs => jsToStringCoerce x :: coerceElems xs
end

/-- JSON string quoting with the common escapes (quote, backslash,
newline, tab, carriage return); rarer control-character escapes are not
needed by any payload in this development. -/
def quoteJson (s : String) : String :=
  "\"" ++ String.join (s.data.map fun c =>
    if c = '"' then "\\\""
    else if c = '\\' then "\\\\"
    else if c = '\n' then "\\n"
    else if c = '\t' then "\\t"
    else if c = '\r' then "\\r"
    else String.mk [c]) ++ "\""

mutual
/-- `JSON.stringify`: returns a string for every input except `undefined`,
for which it returns undefined (the JS value, not a string).  Inside
arrays undefined serializes as `null`; object fields holding undefined
are dropped. -/
def jsonStringify : JSValue → JSValue
  | .vUndefined => .vUndefined
  | .vNull => .vStr "null"
  | .vBool b => .vStr (cond b "true" "false")
  | .vNum n => .vStr (toString n)
  | .vStr s => .vStr (quoteJson s)
  | .vArr xs => .vStr ("[" ++ String.intercalate "," (stringifyArrElems xs) ++ "]")
  | .vObj fs => .vStr ("\x7b" ++ String.intercalate "," (stringifyObjFields fs) ++ "\x7d")

/-- Array elements under `JSON.stringify` (undefined renders as null). -/
def stringifyArrElems : List JSValue → List String
  | [] => []
  | x :: xs =>
    (match jsonStringify x with
     | .vStr s => s
     | _ => "null") :: stringifyArrElems xs

/-- Object fields under `JSON.stringify` (undefined-valued fields are
skipped). -/
def stringifyObjFields : List (String × JSValue) → List String
  | [] => []
  | (k, v) :: fs =>
    match jsonStringify v with
    | .vStr s => (quoteJson k ++ ":" ++ s) :: stringifyObjFields fs
    | _ => stringifyObjFields fs
end

/-! ## Error normalizer (extrairMensagemErro, CadastroEmpresa.js) -/

/-- The axios response attached to a failed request: only its `data`
(the response body) matters to the normalizer.  The body may be any
JS value, including undefined. -/
structure AxiosResponse where
  data : JSValue

/-- The failure value handed to the normalizer: an optional response
(absent on network-level failures) and the transport-level `message`. -/
structure AxiosError where
  response : Option AxiosResponse
  message : JSValue

/-- The callback of `data.detail.map(...)`: a string entry passes
through; otherwise `e.msg` is read (throwing on null/undefined entries),
a truthy `msg` renders as the dot-joined `loc` prefix (when `loc` is
truthy — requiring it to be an array, else `.join` throws) followed by
`: ` and the coerced message; a falsy `msg` serializes the entry. -/
def mapDetailEntry (e : JSValue) : Except Unit String :=
  match e with
  | .vStr s => .ok s
  | _ =>
    match getField e "msg" with
    | .error u => .error u
    | .ok msg =>
      if truthy msg then
        match getField e "loc" with
        | .error u => .error u
        | .ok loc =>
          if truthy loc then
            match loc with
            | .vArr xs => .ok (String.intercalate "." (coerceElems xs) ++ ": " ++ jsToStringCoerce msg)
            | _ => .error ()
          else .ok (jsToStringCoerce msg)
      else
        .ok (match jsonStringify e with
             | .vStr s => s
             | _ => "")

/-- `detail.map(...)` over the whole list; a throw in any callback
aborts the map (and propagates out of the normalizer). -/
def mapDetailList : List JSValue → Except Unit (List String)
  | [] => .ok []
  | e :: es =>
    match mapDetailEntry e with
    | .error u => .error u
    | .ok s =>
      match mapDetailList es with
      | .error u => .error u
      | .ok rest =>
        .ok (s :: rest)

/-- Embedding of `extrairMensagemErro` (CadastroEmpresa.js lines 19-64).
Resolution order as in the source: response body that is a string is
used verbatim; a truthy `detail` dispatches on array / string / other;
otherwise the whole body is serialized; with no response, a truthy
transport `message` is used, else the fixed default.  The final
defense re-stringifies only values whose `typeof` is `object`. -/
def extrairMensagemErro (err : AxiosError) : Except Unit JSValue :=
  match
    (match err.response with
     | some resp =>
       match resp.data with
       | .vStr s => Except.ok (JSValue.vStr s)
       | _ =>
         let detail := optChainField resp.data "detail"
         if truthy detail then
           match detail with
           | .vArr entries =>
             match mapDetailList entries with
             | .error u => Except.error u
             | .ok parts => Except.ok (JSValue.vStr (String.intercalate "; " parts))
           | .vStr s => Except.ok (JSValue.vStr s)
           | d => Except.ok (jsonStringify d)
         else Except.ok (jsonStringify resp.data)
     | none =>
       if truthy err.message then Except.ok err.message
       else Except.ok (JSValue.vStr "Erro desconhecido ao processar requisição."))
  with
  | .error u => .error u
  | .ok m => .ok (if typeofIsObject m then jsonStringify m else m)

/-- Does the normalizer's outcome consist of a plain string? -/
def isStringResult : Except Unit JSValue → Bool
  | .ok (.vStr _) => true
  | _ => false

/-! ## CNPJ mask / unmask (aplicarMascaraCNPJ, limparCNPJ) -/

/-- List-level core of `limparCNPJ`: `valor.replace(/\D/g, '')` keeps
exactly the ASCII digits. -/
def limparL (l : List Char) : List Char := l.filter Char.isDigit

/-- The progressive grouping applied to an already-stripped digit string
(CadastroEmpresa.js lines 71-82).  Each branch mirrors one `replace`
call: the capture groups are consecutive slices of the digit string and,
as in JS `String.replace`, any digits the pattern does not consume
(`drop 14` in the final branch) are appended unchanged after the
replaced part. -/
def maskGroups (n : List Char) : List Char :=
  if n.length ≤ 2 then n
  else if n.length ≤ 5 then
    n.take 2 ++ '.' :: n.drop 2
  else if n.length ≤ 8 then
    n.take 2 ++ '.' :: ((n.drop 2).take 3 ++ '.' :: n.drop 5)
  else if n.length ≤ 12 then
    n.take 2 ++ '.' :: ((n.drop 2).take 3 ++ '.' :: ((n.drop 5).take 3 ++ '/' :: n.drop 8))
  else
    n.take 2 ++ '.' :: ((n.drop 2).take 3 ++ '.' :: ((n.drop 5).take 3 ++ '/' ::
      ((n.drop 8).take 4 ++ '-' :: ((n.drop 12).take 2 ++ n.drop 14))))

/-- List-level core of `aplicarMascaraCNPJ` (lines 67-83): strip the
non-digits (`replace(/\D/g, '')`), then group. -/
def mascaraL (l : List Char) : List Char := maskGroups (l.filter Char.isDigit)

/-- `aplicarMascaraCNPJ`: strip non-digits, then apply the progressive
grouping mask. -/
def aplicarMascaraCNPJ (valor : String) : String := String.mk (mascaraL valor.data)

/-- `limparCNPJ`: strip everything that is not a digit. -/
def limparCNPJ (valor : String) : String := String.mk (limparL valor.data)

/-! ## CNAE auto-population (consultarCNPJ, CadastroEmpresa.js) -/

/-- One activity-code record of the registry lookup response; `codigo`
may arrive as a number or a string, so it is kept dynamic. -/
structure CnaeInfo where
  codigo : JSValue
  descricao : JSValue

/-- The part of the `/api/empresas/consulta` response the auto-populator
reads.  `none` models an absent (or falsy) field. -/
structure ConsultaCNPJResponse where
  cnae_principal : Option CnaeInfo
  cnaes_secundarios : Option (List CnaeInfo)

/-- One entry pushed onto `cnaesAutoPopulados`: `cnae_codigo` is coerced
with `String(...)` whenever the source code is truthy (else the empty
string); `descricao` keeps the source value under `|| ''`; the municipal
service code is always the empty string (operator fills it later). -/
structure CnaeEntry where
  cnae_codigo : String
  descricao : JSValue
  codigo_servico_municipal : String

/-- The object literal pushed for each CNAE inside `consultarCNPJ`. -/
def mkCnaeEntry (c : CnaeInfo) : CnaeEntry :=
  { cnae_codigo := if truthy c.codigo then jsToStringCoerce c.codigo else ""
    descricao := if truthy c.descricao then c.descricao else .vStr ""
    codigo_servico_municipal := "" }

/-- The auto-population block of `consultarCNPJ` (lines 116-147): the
primary CNAE first when present, then the first five secondary CNAEs
(`slice(0, 5)`), each mapped to an entry. -/
def cnaesAutoPopulados (dados : ConsultaCNPJResponse) : List CnaeEntry :=
  (match dados.cnae_principal with
   | some p => [mkCnaeEntry p]
   | none => []) ++
  (match dados.cnaes_secundarios with
   | some l => if l.length > 0 then (l.take 5).map mkCnaeEntry else []
   | none => [])

/-! ## Upload orchestration (UploadXML.js) -/

/-- The local component state of `UploadXML` that the handlers read and
write: the selected file names, the loading flag, the progress pair,
the displayed aggregate result and the error message (kept dynamic
because the failure path can store a non-string `detail`). -/
structure UploadState where
  files : List String
  loading : Bool
  progresso : Option (Nat × Nat)
  resultado : Option JSValue
  error : JSValue

/-- The component's initial state. -/
def initialUploadState : UploadState :=
  { files := [], loading := false, progresso := none, resultado := none, error := .vStr "" }

/-- The extension test `f.name.endsWith('.xml')`, modeled as a suffix
check on the character list so that it evaluates inside the kernel. -/
def hasXmlExt (f : String) : Bool := ".xml".data.isSuffixOf f.data

/-- `handleFileChange` (lines 26-45): keep only names ending in `.xml`;
if none remain, or more than 100 remain, set the validation error and
clear the selection; otherwise store the filtered selection. -/
def handleFileChange (st : UploadState) (selectedFiles : List String) : UploadState :=
  let xmlFiles := selectedFiles.filter (fun f => hasXmlExt f)
  if xmlFiles.length = 0 then
    { st with error := .vStr "Por favor, selecione apenas arquivos XML válidos", files := [] }
  else if xmlFiles.length > 100 then
    { st with error := .vStr "Máximo de 100 arquivos por upload", files := [] }
  else
    { st with files := xmlFiles, error := .vStr "", resultado := none }

/-- `err.response?.data?.detail` with optional chaining. -/
def errorDetail (e : AxiosError) : JSValue :=
  match e.response with
  | some r => optChainField r.data "detail"
  | none => .vUndefined

/-- `handleUpload` (lines 47-107) as a state transition, parameterized
by the settled transport outcome.  With no files it only sets the
validation error.  Otherwise it clears error/result and sets progress,
then: on success it stores the batch body as-is for several files, or
wraps a single-file body in the synthetic one-element aggregate, and
clears the selection; on failure it stores the normalized error and
keeps the selection.  `finally` resets loading and progress. -/
def handleUpload (st : UploadState) (transport : Except AxiosError JSValue) : UploadState :=
  if st.files.length = 0 then
    { st with error := .vStr "Selecione pelo menos um arquivo" }
  else
    let started := { st with loading := true, error := .vStr "", resultado := none,
                             progresso := some (0, st.files.length) }
    match transport with
    | .ok respData =>
      let res := if st.files.length > 1 then respData
                 else JSValue.vObj [("total_arquivos", .vNum 1), ("sucesso", .vNum 1),
                                    ("falhas", .vNum 0), ("nota", respData)]
      { started with resultado := some res, files := [], loading := false, progresso := none }
    | .error e =>
      let d := errorDetail e
      let msg := if truthy d then d else JSValue.vStr "Erro ao processar arquivos"
      { started with error := msg, loading := false, progresso := none }

/-- The transport call `handleUpload` would issue from a given state:
none when the empty-selection guard trips, otherwise the endpoint
choice (true for the batch endpoint, taken when more than one file is
selected) together with the files attached to the form data. -/
def transportRequest (st : UploadState) : Option (Bool × List String) :=
  if st.files.length = 0 then none
  else some (st.files.length > 1, st.files)

/-! ## Invoice PDF value table (generateInvoicePDF, pdfGenerator.js) -/

/-- The invoice fields read by the DISCRIMINAÇÃO DOS SERVIÇOS table of
`generateInvoicePDF`.  Money fields are exact rationals; `none` models
null/undefined/absent. -/
structure NotaData where
  codigo_servico_utilizado : Option String
  descricao_servico : Option String
  valor_total : Option ℚ
  base_calculo : Option ℚ
  aliquota : Option ℚ
  valor_iss : Option ℚ
  deducoes : Option ℚ

/-- JS `a || b` on optional strings (the empty string is falsy). -/
def jsOrStr (a : Option String) (b : String) : String :=
  match a with
  | some s => if s == "" then b else s
  | none => b

/-- Truthiness of an optional number (0, null and undefined are falsy). -/
def truthyNumOpt (v : Option ℚ) : Bool :=
  match v with
  | some q => q != 0
  | none => false

/-- JS `a || b` on optional numbers. -/
def jsOrQ (a : Option ℚ) (b : Option ℚ) : Option ℚ :=
  if truthyNumOpt a then a else b

/-- Two-character zero-padded decimal fragment (the cents of the
formatted amount). -/
def pad2 (m : Nat) : String :=
  String.mk [Nat.digitChar (m / 10 % 10), Nat.digitChar (m % 10)]

/-- Three-character zero-padded group of the thousands grouping. -/
def pad3 (m : Nat) : String :=
  String.mk [Nat.digitChar (m / 100 % 10), Nat.digitChar (m / 10 % 10), Nat.digitChar (m % 10)]

/-- pt-BR integer grouping, fueled so that it evaluates by structural
recursion (the fuel `n` dominates the number of three-digit groups). -/
def groupThousandsAux : Nat → Nat → String
  | 0, n => toString n
  | fuel + 1, n =>
    if n < 1000 then toString n
    else groupThousandsAux fuel (n / 1000) ++ "." ++ pad3 (n % 1000)

/-- pt-BR integer grouping: groups of three digits separated by `.`. -/
def groupThousands (n : Nat) : String := groupThousandsAux n n

/-- The amount in cents that `Intl.NumberFormat` renders: the value
times 100 rounded half away from zero (the formatter's default
`halfExpand` rounding). -/
def brlCents (q : ℚ) : ℤ :=
  if 0 ≤ q then ⌊q * 100 + 1 / 2⌋ else -⌊-q * 100 + 1 / 2⌋

/-- `Intl.NumberFormat('pt-BR', currency BRL)` on a number: `R$ `, the
grouped integer part, a decimal comma and exactly two cent digits (the
separator space is modeled as a plain space). -/
def formatBRL (q : ℚ) : String :=
  (cond (brlCents q < 0) "-" "") ++ "R$ " ++
    groupThousands ((brlCents q).natAbs / 100) ++ "," ++ pad2 ((brlCents q).natAbs % 100)

/-- `formatCurrency` (pdfGenerator.js lines 322-331) on the numeric-or-
absent values the invoice model carries: null/undefined short-circuit to
`R$ 0,00`; numbers (including 0, which skips the early return only to
format identically) go through the fixed-point formatter.  The source's
`parseFloat` branch for string-typed amounts has no counterpart because
the model's money fields are numeric. -/
def formatCurrency (value : Option ℚ) : String :=
  match value with
  | none => "R$ 0,00"
  | some q => formatBRL q

/-- JS number-to-string for the alíquota cell's template literal,
adequate for the terminating decimals the model carries. -/
def fracDigits : Nat → ℚ → List Char
  | 0, _ => []
  | fuel + 1, r =>
    if r = 0 then []
    else Nat.digitChar (Int.toNat ⌊r * 10⌋) :: fracDigits fuel (r * 10 - ⌊r * 10⌋)

/-- JS `String(number)` for the rationals used here. -/
def jsNumberToString (q : ℚ) : String :=
  (cond (q < 0) "-" "") ++ toString ⌊|q|⌋.toNat ++
    (if |q| - ⌊|q|⌋ = 0 then "" else "." ++ String.mk (fracDigits 20 (|q| - ⌊|q|⌋)))

/-- The body rows of the DISCRIMINAÇÃO DOS SERVIÇOS autoTable
(pdfGenerator.js lines 234-253): seven fixed rows in source order; the
four money rows all go through `formatCurrency`, with `base_calculo`
falling back to `valor_total` and ISS/deductions defaulting to 0 under
`||`; the alíquota renders as a percentage or `N/A` when falsy. -/
def servicosTableBody (nota : NotaData) : List (String × String) :=
  [ ("Código do Serviço", jsOrStr nota.codigo_servico_utilizado "N/A"),
    ("Descrição", jsOrStr nota.descricao_servico "Serviços conforme contrato"),
    ("Valor dos Serviços", formatCurrency nota.valor_total),
    ("Base de Cálculo", formatCurrency (jsOrQ nota.base_calculo nota.valor_total)),
    ("Alíquota ISS", match nota.aliquota with
      | some a => if a != 0 then jsNumberToString a ++ "%" else "N/A"
      | none => "N/A"),
    ("Valor do ISS", formatCurrency (jsOrQ nota.valor_iss (some 0))),
    ("Outras Deduções", formatCurrency (jsOrQ nota.deducoes (some 0))) ]

/-- Checks that a rendered amount ends in a decimal comma followed by
exactly two digit characters. -/
def hasTwoDecimals (s : String) : Bool :=
  match s.data.reverse with
  | d2 :: d1 :: c :: _ => d2.isDigit && d1.isDigit && (c == ',')
  | _ => false

/-- One encodable validation-entry shape: an optional location path and
a message. -/
abbrev DetailSpec := Option (List String) × String

/-- The JS object a FastAPI validation entry arrives as. -/
def encodeDetailEntry : DetailSpec → JSValue
  | (some segs, m) => .vObj [("loc", .vArr (segs.map .vStr)), ("msg", .vStr m)]
  | (none, m) => .vObj [("msg", .vStr m)]

/-- The rendering the claim prescribes for one validation entry. -/
def renderDetailEntry : DetailSpec → String
  | (some segs, m) => String.intercalate "." segs ++ ": " ++ m
  | (none, m) => m

/-- The registry example of the spec: one numeric primary code and eight
secondary codes. -/
def c7Dados : ConsultaCNPJResponse :=
  { cnae_principal := some ⟨.vNum 6201500, .vStr "Desenvolvimento de programas"⟩
    cnaes_secundarios := some
      [⟨.vNum 1, .vStr "a"⟩, ⟨.vNum 2, .vStr "b"⟩, ⟨.vStr "3", .vStr "c"⟩,
       ⟨.vNum 4, .vStr "d"⟩, ⟨.vNum 5, .vStr "e"⟩, ⟨.vNum 6, .vStr "f"⟩,
       ⟨.vNum 7, .vStr "g"⟩, ⟨.vNum 8, .vStr "h"⟩] }

/-- A state with one selected file and a previously displayed result. -/
def c9State : UploadState :=
  { files := ["a.xml"]
    loading := false
    progresso := none
    resultado := some (.vObj [("total_arquivos", .vNum 1)])
    error := .vStr "" }

/-- A plain network failure. -/
def c9Error : AxiosError := { response := none, message := .vStr "Network Error" }

/-- The invoice of the C8 example: gross value 1234.5 and a null ISS
value. -/
def c8Nota : NotaData :=
  { codigo_servico_utilizado := some "08.02"
    descricao_servico := none
    valor_total := some (2469 / 2)
    base_calculo := none
    aliquota := some 5
    valor_iss := none
    deducoes := none }

/-! ## Helper lemmas -/

theorem string_data_append (a b : String) : (a ++ b).data = a.data ++ b.data := rfl

theorem filter_digit_cons_punct (c : Char) (hc : Char.isDigit c = false) (m : List Char) :
    (c :: m).filter Char.isDigit = m.filter Char.isDigit := by
  simp [List.filter_cons, hc]

/-- Stripping the non-digits of a mask output recovers exactly the digit
string the mask was built from: every punctuation character the grouping
inserts is a non-digit, and the digit slices recompose to the whole. -/
theorem limparL_maskGroups (n : List Char) (hall : ∀ c ∈ n, Char.isDigit c = true) :
    limparL (maskGroups n) = n := by
  have hfil : ∀ m : List Char, m ⊆ n → m.filter Char.isDigit = m := fun m hm =>
    List.filter_eq_self.mpr fun c hc => hall c (hm hc)
  have hseg : ∀ (a b c : ℕ), a + b = c → (n.drop a).take b ++ n.drop c = n.drop a := by
    intro a b c hc
    have h2 : n.drop c = (n.drop a).drop b := by
      rw [List.drop_drop, hc]
    rw [h2, List.take_append_drop]
  have hsub2 : ∀ (a b : ℕ), (n.drop a).take b ⊆ n := fun a b =>
    List.Subset.trans (List.take_subset _ _) (List.drop_subset _ _)
  unfold maskGroups limparL
  split_ifs with h1 h2 h3 h4
  · exact hfil n (fun _ h => h)
  · rw [List.filter_append, filter_digit_cons_punct '.' rfl,
        hfil _ (List.take_subset _ _), hfil _ (List.drop_subset _ _),
        List.take_append_drop]
  · rw [List.filter_append, filter_digit_cons_punct '.' rfl,
        List.filter_append, filter_digit_cons_punct '.' rfl,
        hfil _ (List.take_subset _ _), hfil _ (hsub2 2 3), hfil _ (List.drop_subset _ _),
        hseg 2 3 5 (by norm_num), List.take_append_drop]
  · rw [List.filter_append, filter_digit_cons_punct '.' rfl,
        List.filter_append, filter_digit_cons_punct '.' rfl,
        List.filter_append, filter_digit_cons_punct '/' rfl,
        hfil _ (List.take_subset _ _), hfil _ (hsub2 2 3), hfil _ (hsub2 5 3),
        hfil _ (List.drop_subset _ _),
        hseg 5 3 8 (by norm_num), hseg 2 3 5 (by norm_num), List.take_append_drop]
  · rw [List.filter_append, filter_digit_cons_punct '.' rfl,
        List.filter_append, filter_digit_cons_punct '.' rfl,
        List.filter_append, filter_digit_cons_punct '/' rfl,
        List.filter_append, filter_digit_cons_punct '-' rfl,
        List.filter_append,
        hfil _ (List.take_subset _ _), hfil _ (hsub2 2 3), hfil _ (hsub2 5 3),
        hfil _ (hsub2 8 4), hfil _ (hsub2 12 2), hfil _ (List.drop_subset _ _),
        hseg 12 2 14 (by norm_num), hseg 8 4 12 (by norm_num),
        hseg 5 3 8 (by norm_num), hseg 2 3 5 (by norm_num), List.take_append_drop]

/-- Unmasking after masking keeps exactly the digits of the input, for
every input whatsoever. -/
theorem limparL_mascaraL (l : List Char) : limparL (mascaraL l) = limparL l :=
  limparL_maskGroups _ (fun _ hc => List.of_mem_filter hc)

theorem coerceElems_map_vStr (segs : List String) :
    coerceElems (segs.map JSValue.vStr) = segs := by
  induction segs with
  | nil => rfl
  | cons a t ih => simp [coerceElems, jsToStringCoerce, ih]

theorem mapDetailEntry_encoded (ls : Option (List String)) (m : String) (hm : m ≠ "") :
    mapDetailEntry (encodeDetailEntry (ls, m)) = .ok (renderDetailEntry (ls, m)) := by
  have hm' : (m == "") = false := by
    simpa using hm
  cases ls with
  | some segs =>
      simp [mapDetailEntry, encodeDetailEntry, getField, lookupField, truthy, bne, hm',
            coerceElems_map_vStr, renderDetailEntry, jsToStringCoerce]
  | none =>
      simp [mapDetailEntry, encodeDetailEntry, getField, lookupField, truthy, bne, hm',
            renderDetailEntry, jsToStringCoerce]

theorem mapDetailList_encoded (specs : List DetailSpec) (h : ∀ p ∈ specs, p.2 ≠ "") :
    mapDetailList (specs.map encodeDetailEntry) = .ok (specs.map renderDetailEntry) := by
  induction specs with
  | nil => rfl
  | cons p t ih =>
    obtain ⟨ls, m⟩ := p
    have hm := h (ls, m) (List.mem_cons_self _ _)
    have ih' := ih (fun q hq => h q (List.mem_cons_of_mem _ hq))
    simp [mapDetailList, mapDetailEntry_encoded ls m hm, ih']

theorem digitChar_isDigit (m : Nat) (h : m < 10) : (Nat.digitChar m).isDigit = true := by
  interval_cases m <;> rfl

theorem hasTwoDecimals_append (x : String) (m : Nat) :
    hasTwoDecimals (x ++ "," ++ pad2 m) = true := by
  have hd1 : (Nat.digitChar (m / 10 % 10)).isDigit = true :=
    digitChar_isDigit _ (Nat.mod_lt _ (by norm_num))
  have hd2 : (Nat.digitChar (m % 10)).isDigit = true :=
    digitChar_isDigit _ (Nat.mod_lt _ (by norm_num))
  have hdata : (x ++ "," ++ pad2 m).data =
      x.data ++ [','] ++ [Nat.digitChar (m / 10 % 10), Nat.digitChar (m % 10)] := rfl
  simp [hasTwoDecimals, hdata, List.reverse_append, hd1, hd2]

/-! ## Claim theorems -/

/-- C5: for every string of at most 14 ASCII digits, unmasking the
masked form gives back the original string: the mask only inserts
punctuation around consecutive digit slices, which stripping removes. -/
theorem c5_mask_unmask_roundtrip (s : String)
    (h1 : ∀ c ∈ s.data, Char.isDigit c = true) (h2 : s.length ≤ 14) :
    limparCNPJ (aplicarMascaraCNPJ s) = s := by
  show String.mk (limparL (mascaraL s.data)) = s
  rw [limparL_mascaraL]
  show String.mk (s.data.filter Char.isDigit) = s
  rw [List.filter_eq_self.mpr h1]

/-- Witness for C5 at the 14-digit string of the display example. -/
theorem c5_mask_unmask_roundtrip_witness :
    (∀ c ∈ "12345678901234".data, Char.isDigit c = true) ∧
    "12345678901234".length ≤ 14 ∧
    limparCNPJ (aplicarMascaraCNPJ "12345678901234") = "12345678901234" :=
  ⟨by decide, by decide, c5_mask_unmask_roundtrip _ (by decide) (by decide)⟩

/-- C6 counterexample: on a 15-digit input the mask does NOT truncate
the excess digit — JS `replace` appends the unmatched tail — so the
output still contains all 15 digits and unmask(mask(x)) has length 15,
not 14. -/
theorem c6_mask_truncation_counterexample :
    aplicarMascaraCNPJ "123456789012345" = "12.345.678/9012-345" ∧
    limparCNPJ (aplicarMascaraCNPJ "123456789012345") = "123456789012345" ∧
    (limparCNPJ (aplicarMascaraCNPJ "123456789012345")).length = 15 := by
  refine ⟨by decide, by decide, by decide⟩

/-- C6 amended: for inputs with more than 14 digits the grouping
captures only the first 14 digits into groups, but the excess digits are
appended verbatim after the mask (JS `replace` keeps the unmatched
suffix), so unmasking returns all digits of the input, not just 14. -/
theorem c6_mask_keeps_excess_digits (s : String) (h : 14 < (limparCNPJ s).length) :
    limparCNPJ (aplicarMascaraCNPJ s) = limparCNPJ s := by
  show String.mk (limparL (mascaraL s.data)) = String.mk (limparL s.data)
  rw [limparL_mascaraL]

/-- Witness for the amended C6 at a 15-digit input. -/
theorem c6_mask_keeps_excess_digits_witness :
    14 < (limparCNPJ "123456789012345").length ∧
    limparCNPJ (aplicarMascaraCNPJ "123456789012345") = limparCNPJ "123456789012345" :=
  ⟨by decide, c6_mask_keeps_excess_digits "123456789012345" (by decide)⟩

/-- C3: a response body whose `detail` is a list of validation entries
(each an optional location path and a non-empty message) normalizes to
the entries joined with `; `, each rendered as the dot-joined location,
a colon and a space, then the message — the location part omitted for
entries without one. -/
theorem c3_detail_list_normalization (specs : List DetailSpec) (msgv : JSValue)
    (h : ∀ p ∈ specs, p.2 ≠ "") :
    extrairMensagemErro
      { response := some { data := .vObj [("detail", .vArr (specs.map encodeDetailEntry))] }
        message := msgv } =
    .ok (.vStr (String.intercalate "; " (specs.map renderDetailEntry))) := by
  simp [extrairMensagemErro, optChainField, lookupField, truthy, typeofIsObject,
        mapDetailList_encoded specs h]

/-- Witness for C3 at the spec example:
detail [loc (body, cnpj), msg (field required)] yields
"body.cnpj: field required". -/
theorem c3_detail_list_normalization_witness :
    extrairMensagemErro
      { response := some { data := .vObj [("detail",
          .vArr ([((some ["body", "cnpj"] : Option (List String)), "field required")].map
            encodeDetailEntry))] }
        message := .vStr "Request failed with status code 422" } =
    .ok (.vStr "body.cnpj: field required") := by
  have h := c3_detail_list_normalization
    [((some ["body", "cnpj"] : Option (List String)), "field required")]
    (.vStr "Request failed with status code 422") (by decide)
  rw [h]
  rfl

/-- C10: a non-string object body whose `detail` field is present but
falsy (empty string, 0, null, false or explicit undefined) ignores the
`detail` branch entirely — the guard tests truthiness, not presence —
and serializes the whole body instead. -/
theorem c10_falsy_detail_serializes_body (fields : List (String × JSValue))
    (d msgv : JSValue)
    (h1 : lookupField fields "detail" = some d) (h2 : truthy d = false) :
    extrairMensagemErro { response := some { data := .vObj fields }, message := msgv } =
      .ok (jsonStringify (.vObj fields)) := by
  simp [extrairMensagemErro, optChainField, h1, h2, jsonStringify, typeofIsObject]

/-- Witness for C10: body with detail null and a second field serializes
as the whole JSON object. -/
theorem c10_falsy_detail_serializes_body_witness :
    extrairMensagemErro
      { response := some { data := .vObj [("detail", .vNull), ("code", .vNum 422)] }
        message := .vStr "erro" } =
    .ok (.vStr "\x7b\"detail\":null,\"code\":422\x7d") := by
  have h := c10_falsy_detail_serializes_body [("detail", .vNull), ("code", .vNum 422)]
    .vNull (.vStr "erro") rfl rfl
  rw [h]
  rfl

/-- C4 (code bug): the normalizer does NOT always return a plain string.
With a response present whose body is undefined, every guard is skipped
(undefined has no truthy detail and is not a string), `JSON.stringify`
of undefined returns undefined — not a string — and the final defense
misses it because `typeof undefined` is not `object`.  The function
returns the JS value undefined. -/
theorem c4_normalizer_not_always_string :
    extrairMensagemErro { response := some { data := .vUndefined }
                          message := .vStr "Network Error" } = .ok JSValue.vUndefined ∧
    isStringResult (extrairMensagemErro { response := some { data := .vUndefined }
                                          message := .vStr "Network Error" }) = false :=
  ⟨rfl, rfl⟩

/-- C7: with a primary activity code present and a list of secondary
codes, the populator yields the primary entry first followed by the
first five secondaries in order — 1 + min(k, 5) entries in total — and
every entry's municipal service code is the empty string. -/
theorem c7_cnae_autopopulate (dados : ConsultaCNPJResponse) (p : CnaeInfo)
    (sec : List CnaeInfo)
    (h1 : dados.cnae_principal = some p) (h2 : dados.cnaes_secundarios = some sec) :
    cnaesAutoPopulados dados = mkCnaeEntry p :: (sec.take 5).map mkCnaeEntry ∧
    (cnaesAutoPopulados dados).length = 1 + min sec.length 5 ∧
    ∀ e ∈ cnaesAutoPopulados dados, e.codigo_servico_municipal = "" := by
  have hmain : cnaesAutoPopulados dados = mkCnaeEntry p :: (sec.take 5).map mkCnaeEntry := by
    unfold cnaesAutoPopulados
    rw [h1, h2]
    cases sec with
    | nil => simp
    | cons a t => simp
  refine ⟨hmain, ?_, ?_⟩
  · rw [hmain]
    simp [List.length_take]
    omega
  · rw [hmain]
    intro e he
    rcases List.mem_cons.mp he with h | h
    · rw [h]
      rfl
    · rcases List.mem_map.mp h with ⟨c, _, rfl⟩
      rfl

/-- Witness for C7: the example yields exactly 6 entries (1 primary plus
5 of the 8 secondaries) and the numeric primary code is coerced to the
string 6201500. -/
theorem c7_cnae_autopopulate_witness :
    (cnaesAutoPopulados c7Dados).length = 6 ∧
    (cnaesAutoPopulados c7Dados).head?.map (fun e => e.cnae_codigo) = some "6201500" := by
  have h := c7_cnae_autopopulate c7Dados ⟨.vNum 6201500, .vStr "Desenvolvimento de programas"⟩
    _ rfl rfl
  constructor
  · rw [h.2.1]
    decide
  · rw [h.1]
    rfl

/-- C1: a successful single-file upload stores the synthetic aggregate
(total 1, success 1, failures 0) wrapping the response body as `nota`,
whatever the body's content — including a not-approved invoice. -/
theorem c1_single_upload_wraps (st : UploadState) (respData : JSValue)
    (h : st.files.length = 1) :
    (handleUpload st (.ok respData)).resultado =
      some (.vObj [("total_arquivos", .vNum 1), ("sucesso", .vNum 1),
                   ("falhas", .vNum 0), ("nota", respData)]) := by
  simp [handleUpload, h]

/-- Witness for C1 with one selected file and a REJEITADA (not APROVADA)
invoice body. -/
theorem c1_single_upload_wraps_witness :
    ({ initialUploadState with files := ["nota1.xml"] } : UploadState).files.length = 1 ∧
    (handleUpload { initialUploadState with files := ["nota1.xml"] }
        (.ok (.vObj [("numero_nota", .vStr "123"),
                     ("status_auditoria", .vStr "REJEITADA")]))).resultado =
      some (.vObj [("total_arquivos", .vNum 1), ("sucesso", .vNum 1), ("falhas", .vNum 0),
                   ("nota", .vObj [("numero_nota", .vStr "123"),
                                   ("status_auditoria", .vStr "REJEITADA")])]) :=
  ⟨rfl, c1_single_upload_wraps _ _ rfl⟩

/-- C2 counterexample: a selection containing a file without the `.xml`
extension does NOT fail locally — the non-XML file is silently filtered
out and a transport call is still issued with the remaining XML file. -/
theorem c2_mixed_selection_counterexample :
    (["a.xml", "b.pdf"].any fun f => !(hasXmlExt f)) = true ∧
    transportRequest (handleFileChange initialUploadState ["a.xml", "b.pdf"]) =
      some (false, ["a.xml"]) := by
  exact ⟨by decide, by decide⟩

/-- C2 amended: validation is decided by the count of files bearing the
`.xml` extension after silent filtering — zero such files or more than
100 such files set a local error and issue no transport call; otherwise
exactly the extension-bearing files are submitted (batch endpoint when
more than one). -/
theorem c2_filtered_count_validation (st : UploadState) (sel : List String) :
    ((sel.filter fun f => hasXmlExt f) = [] →
        transportRequest (handleFileChange st sel) = none ∧
        (handleFileChange st sel).error =
          .vStr "Por favor, selecione apenas arquivos XML válidos") ∧
    ((sel.filter fun f => hasXmlExt f).length > 100 →
        transportRequest (handleFileChange st sel) = none ∧
        (handleFileChange st sel).error = .vStr "Máximo de 100 arquivos por upload") ∧
    (0 < (sel.filter fun f => hasXmlExt f).length →
        (sel.filter fun f => hasXmlExt f).length ≤ 100 →
        transportRequest (handleFileChange st sel) =
          some (decide ((sel.filter fun f => hasXmlExt f).length > 1),
                sel.filter fun f => hasXmlExt f)) := by
  refine ⟨?_, ?_, ?_⟩
  · intro h
    simp [handleFileChange, transportRequest, h]
  · intro h
    have h0 : ¬ (sel.filter fun f => hasXmlExt f).length = 0 := by omega
    simp [handleFileChange, transportRequest, h0, h]
  · intro hlo hhi
    have h0 : ¬ (sel.filter fun f => hasXmlExt f).length = 0 := by omega
    have h100 : ¬ (sel.filter fun f => hasXmlExt f).length > 100 := by omega
    simp [handleFileChange, transportRequest, h0, h100]

/-- Witness for the amended C2: two XML files pass validation and reach
the batch transport. -/
theorem c2_filtered_count_validation_witness :
    transportRequest (handleFileChange initialUploadState ["a.xml", "b.xml"]) =
      some (decide ((["a.xml", "b.xml"].filter fun f => hasXmlExt f).length > 1),
            ["a.xml", "b.xml"].filter fun f => hasXmlExt f) :=
  (c2_filtered_count_validation initialUploadState ["a.xml", "b.xml"]).2.2
    (by decide) (by decide)

/-- C9 counterexample: a failed submission does NOT leave the previously
displayed result unchanged — `handleUpload` clears it at the start of
every attempt — although the selected files do survive the failure. -/
theorem c9_failed_submission_counterexample :
    c9State.resultado = some (.vObj [("total_arquivos", .vNum 1)]) ∧
    (handleUpload c9State (.error c9Error)).resultado = none ∧
    (handleUpload c9State (.error c9Error)).resultado ≠ c9State.resultado ∧
    (handleUpload c9State (.error c9Error)).files = c9State.files := by
  refine ⟨rfl, rfl, ?_, rfl⟩
  intro hcontra
  rw [show (handleUpload c9State (.error c9Error)).resultado = none from rfl,
      show c9State.resultado = some (.vObj [("total_arquivos", .vNum 1)]) from rfl] at hcontra
  exact Option.noConfusion hcontra

/-- C9 amended: a failed submission keeps the selected files intact (so
the operator can retry), but the previously displayed aggregate result
is cleared at the start of the attempt, not preserved; files are cleared
only by a successful cycle. -/
theorem c9_failure_keeps_files_clears_result (st : UploadState) (e : AxiosError)
    (h : st.files ≠ []) :
    (handleUpload st (.error e)).files = st.files ∧
    (handleUpload st (.error e)).resultado = none := by
  have h0 : ¬ st.files.length = 0 := by
    simpa [List.length_eq_zero] using h
  simp [handleUpload, h0]

/-- Witness for the amended C9 at the concrete failing cycle. -/
theorem c9_failure_keeps_files_clears_result_witness :
    (handleUpload c9State (.error c9Error)).files = c9State.files ∧
    (handleUpload c9State (.error c9Error)).resultado = none :=
  c9_failure_keeps_files_clears_result c9State c9Error (by decide)

/-- C8: every money cell of the service value table goes through the one
fixed-point formatter — two decimal digits after a decimal comma, with
absent values defaulting to zero — and the example invoice with
valor_total 1234.5 and valor_iss null renders R$ 1.234,50 and R$ 0,00,
never a blank cell. -/
theorem c8_value_table_formatting :
    (∀ v : Option ℚ, hasTwoDecimals (formatCurrency v) = true) ∧
    formatCurrency none = "R$ 0,00" ∧
    (∀ nota : NotaData, servicosTableBody nota =
      [ ("Código do Serviço", jsOrStr nota.codigo_servico_utilizado "N/A"),
        ("Descrição", jsOrStr nota.descricao_servico "Serviços conforme contrato"),
        ("Valor dos Serviços", formatCurrency nota.valor_total),
        ("Base de Cálculo", formatCurrency (jsOrQ nota.base_calculo nota.valor_total)),
        ("Alíquota ISS", match nota.aliquota with
          | some a => if a != 0 then jsNumberToString a ++ "%" else "N/A"
          | none => "N/A"),
        ("Valor do ISS", formatCurrency (jsOrQ nota.valor_iss (some 0))),
        ("Outras Deduções", formatCurrency (jsOrQ nota.deducoes (some 0))) ]) ∧
    servicosTableBody c8Nota =
      [ ("Código do Serviço", "08.02"),
        ("Descrição", "Serviços conforme contrato"),
        ("Valor dos Serviços", "R$ 1.234,50"),
        ("Base de Cálculo", "R$ 1.234,50"),
        ("Alíquota ISS", "5%"),
        ("Valor do ISS", "R$ 0,00"),
        ("Outras Deduções", "R$ 0,00") ] := by
  refine ⟨?_, rfl, fun nota => rfl, ?_⟩
  · intro v
    cases v with
    | none => rfl
    | some q =>
        show hasTwoDecimals (formatBRL q) = true
        unfold formatBRL
        exact hasTwoDecimals_append _ _
  · have hc1 : brlCents ((2469 : ℚ) / 2) = 123450 := by
      unfold brlCents
      rw [if_pos (by norm_num)]
      rw [show ((2469 : ℚ) / 2 * 100 + 1 / 2) = 246901 / 2 by norm_num]
      rw [Int.floor_eq_iff]
      constructor <;> norm_num
    have hbrl1 : formatBRL ((2469 : ℚ) / 2) = "R$ 1.234,50" := by
      unfold formatBRL
      rw [hc1]
      rfl
    have hc0 : brlCents (0 : ℚ) = 0 := by
      unfold brlCents
      rw [if_pos (by norm_num)]
      rw [Int.floor_eq_iff]
      constructor <;> norm_num
    have hbrl0 : formatBRL (0 : ℚ) = "R$ 0,00" := by
      unfold formatBRL
      rw [hc0]
      rfl
    have hnum5 : jsNumberToString (5 : ℚ) = "5" := by
      unfold jsNumberToString
      rw [show |(5 : ℚ)| = 5 by norm_num, show ⌊(5 : ℚ)⌋ = 5 by norm_num]
      rw [if_pos (by norm_num)]
      rfl
    show servicosTableBody c8Nota = _
    unfold servicosTableBody c8Nota
    simp [jsOrStr, jsOrQ, truthyNumOpt, formatCurrency, hbrl1, hbrl0, hnum5,
          show ((5 : ℚ) != 0) = true from rfl]
